import Mathlib

/-!
Verification of the grievance aggregation core (`src/analytics/analyzer.py`,
class `GrievanceAnalyzer`).  The Python code loads a JSON list of record
dictionaries into a pandas DataFrame and computes summary statistics.  We
shallowly embed the relevant pandas semantics:

* a JSON record is a dictionary whose optional keys may be absent, null or a
  string (`Cell`);
* `pd.DataFrame(list_of_dicts)` produces a table whose column set is the union
  of the dictionaries' keys; records missing a key hold NaN in that column;
* `pd.to_datetime` maps NaN/None/"" to NaT and raises on a non-empty string it
  cannot parse (its default is `errors='raise'`);
* `groupby(col).size()` and `Series.value_counts()` drop NaN keys;
* `Timedelta.days` is floor division of the difference by one day;
* `Series.mean()` skips NaN values and is NaN when no value remains.

Numbers are embedded as `Nat`/`Int`/`ℚ` (Python ints and the exact values of
the float arithmetic performed here); raising is `Except.error`; NaN/NaT is
`Option.none` in a value position.  The `updated_at` column conversion in
`_load_data` is omitted: no property below concerns `updated_at`, and its
conversion is identical in kind to the `created_at` one that is modelled.
-/

/-- A cell of a raw JSON record: the key may be absent from the dictionary,
present with JSON `null`, or present with a string value.  (`pd.DataFrame`
turns both `absent` and `null` into NaN.) -/
inductive Cell where
  | absent
  | null
  | str (s : String)
deriving DecidableEq, Repr

/-- NaN-aware view of a field: the string if present, otherwise `none`. -/
def Cell.toStr : Cell → Option String
  | .str s => some s
  | _ => none

/-- A parsed timestamp (the fields of a `datetime`). -/
structure Timestamp where
  year : Nat
  month : Nat
  day : Nat
  hour : Nat
  minute : Nat
  second : Nat
deriving DecidableEq, Repr

def natOfDigit (c : Char) : Nat := c.toNat - 48

def allDigits (cs : List Char) : Bool := cs.all Char.isDigit

/-- Read `[c1, c2]` as a two-digit number. -/
def twoDigits (c1 c2 : Char) : Nat := 10 * natOfDigit c1 + natOfDigit c2

/-- Read four characters as a four-digit number. -/
def fourDigits (c1 c2 c3 c4 : Char) : Nat :=
  1000 * natOfDigit c1 + 100 * natOfDigit c2 + 10 * natOfDigit c3 + natOfDigit c4

/-- Basic calendar validity used when parsing a date. -/
def validDate (y m d : Nat) : Bool :=
  1 ≤ y && 1 ≤ m && m ≤ 12 && 1 ≤ d && d ≤ 31

def validTime (h mi s : Nat) : Bool :=
  h < 24 && mi < 60 && s < 60

/-- Parse the two accepted timestamp layouts, `YYYY-MM-DD HH:MM:SS` and
`YYYY-MM-DD` (the layouts the data uses; `pd.to_datetime` infers them).
Anything else is unparseable. -/
def parseTimestampChars : List Char → Option Timestamp
  | [y1, y2, y3, y4, '-', m1, m2, '-', d1, d2, ' ', h1, h2, ':', n1, n2, ':', s1, s2] =>
      if allDigits [y1, y2, y3, y4, m1, m2, d1, d2, h1, h2, n1, n2, s1, s2] then
        let y := fourDigits y1 y2 y3 y4
        let m := twoDigits m1 m2
        let d := twoDigits d1 d2
        let h := twoDigits h1 h2
        let mi := twoDigits n1 n2
        let s := twoDigits s1 s2
        if validDate y m d && validTime h mi s then
          some ⟨y, m, d, h, mi, s⟩
        else none
      else none
  | [y1, y2, y3, y4, '-', m1, m2, '-', d1, d2] =>
      if allDigits [y1, y2, y3, y4, m1, m2, d1, d2] then
        let y := fourDigits y1 y2 y3 y4
        let m := twoDigits m1 m2
        let d := twoDigits d1 d2
        if validDate y m d then some ⟨y, m, d, 0, 0, 0⟩ else none
      else none
  | _ => none

/-- `pd.to_datetime` on one non-missing string: parse or raise. -/
def parseTimestamp (s : String) : Except String Timestamp :=
  match parseTimestampChars s.toList with
  | some t => .ok t
  | none => .error ("Unknown datetime string format: " ++ s)

/-- `pd.to_datetime` on one raw cell: absent/null/empty become NaT (`none`),
a non-empty string must parse or the whole conversion raises. -/
def toDatetimeCell : Cell → Except String (Option Timestamp)
  | .absent => .ok none
  | .null => .ok none
  | .str s => if s = "" then .ok none else (parseTimestamp s).map some

def isLeapYear (y : Nat) : Bool :=
  (y % 4 == 0 && y % 100 != 0) || y % 400 == 0

/-- Days in the months before month `m` of a year (Gregorian). -/
def daysBeforeMonth (m : Nat) (leap : Bool) : Nat :=
  let base :=
    match m with
    | 1 => 0 | 2 => 31 | 3 => 59 | 4 => 90 | 5 => 120 | 6 => 151
    | 7 => 181 | 8 => 212 | 9 => 243 | 10 => 273 | 11 => 304 | _ => 334
  if leap && m > 2 then base + 1 else base

/-- Days elapsed from 0001-01-01 to the given civil date (proleptic Gregorian,
as pandas timestamps use). -/
def daysFromYear1 (y m d : Nat) : Nat :=
  365 * (y - 1) + (y - 1) / 4 + (y - 1) / 400 - (y - 1) / 100
    + daysBeforeMonth m (isLeapYear y) + (d - 1)

/-- A timestamp as a second count, for taking differences. -/
def Timestamp.toSeconds (t : Timestamp) : Nat :=
  86400 * daysFromYear1 t.year t.month t.day
    + 3600 * t.hour + 60 * t.minute + t.second

/-- `(b - a).days` on pandas timestamps: floor division of the signed
difference by one day. -/
def diffDays (a b : Timestamp) : Int :=
  Int.fdiv ((b.toSeconds : Int) - (a.toSeconds : Int)) 86400

/-- `Period('M')` rendering used by `get_monthly_trend`'s `str(k)`:
`YYYY-MM`. -/
def pad2 (n : Nat) : String := if n < 10 then "0" ++ toString n else toString n

def Timestamp.periodM (t : Timestamp) : String :=
  toString t.year ++ "-" ++ pad2 t.month

/-- One raw JSON grievance record as `json.load` delivers it. -/
structure RawRecord where
  id : Nat
  category : Cell
  status : Cell
  created_at : Cell
  resolved_at : Cell
deriving DecidableEq, Repr

/-- One row of `self.df` after `_load_data` ran: `created_at` has been
converted by `pd.to_datetime` (`none` = NaT); `category`, `status` and
`resolved_at` keep their raw cell values. -/
structure LoadedRow where
  id : Nat
  category : Cell
  status : Cell
  created_at : Option Timestamp
  resolved_at : Cell
deriving DecidableEq, Repr

/-- The analyzer's `self.df`: its rows, plus whether the `created_at` and
`resolved_at` columns exist (a column exists iff some input dictionary had
the key). -/
structure DataFrame where
  rows : List LoadedRow
  hasCreatedAt : Bool
  hasResolvedAt : Bool
deriving DecidableEq, Repr

def emptyDF : DataFrame := ⟨[], false, false⟩

/-- Convert one raw record to a row: `created_at` goes through
`pd.to_datetime` only when the column exists at all. -/
def convertRecord (hasCreated : Bool) (r : RawRecord) : Except String LoadedRow :=
  if hasCreated then
    match toDatetimeCell r.created_at with
    | .error e => .error e
    | .ok ts => .ok ⟨r.id, r.category, r.status, ts, r.resolved_at⟩
  else
    .ok ⟨r.id, r.category, r.status, none, r.resolved_at⟩

def convertRecords (hasCreated : Bool) : List RawRecord → Except String (List LoadedRow)
  | [] => .ok []
  | r :: rs =>
    match convertRecord hasCreated r with
    | .error e => .error e
    | .ok row =>
      match convertRecords hasCreated rs with
      | .error e => .error e
      | .ok rows => .ok (row :: rows)

/-- What `open`+`json.load` produced: the file was missing, its contents were
not JSON, or a record list was obtained. -/
inductive LoadSource where
  | fileMissing
  | invalidJson
  | json (records : List RawRecord)

/-- `GrievanceAnalyzer._load_data`.  `FileNotFoundError` and
`json.JSONDecodeError` are caught and leave an empty DataFrame; a falsy
(empty) record list also gives an empty DataFrame; otherwise the DataFrame is
built and the `created_at` column converted — a conversion failure raises out
of `_load_data` (only the two exceptions above are caught). -/
def loadData : LoadSource → Except String DataFrame
  | .fileMissing => .ok emptyDF
  | .invalidJson => .ok emptyDF
  | .json [] => .ok emptyDF
  | .json records =>
    let hasCreated := records.any (fun r => r.created_at ≠ .absent)
    let hasResolved := records.any (fun r => r.resolved_at ≠ .absent)
    match convertRecords hasCreated records with
    | .error e => .error e
    | .ok rows => .ok ⟨rows, hasCreated, hasResolved⟩

/-- `GrievanceAnalyzer.get_total_grievances`. -/
def get_total_grievances (df : DataFrame) : Nat :=
  if df.rows.isEmpty then 0 else df.rows.length

/-- First occurrences, in order, of the values of a list (the distinct group
keys a pandas groupby/value_counts forms; pandas returns groupby keys sorted,
but every property proved below is insensitive to the key order, so the table
is built in first-seen order). -/
def distinctInOrder : List String → List String
  | [] => []
  | x :: t => x :: (distinctInOrder t).filter (fun s => s ≠ x)

def countOf (l : List String) (s : String) : Nat :=
  (l.filter (fun x => x = s)).length

/-- `groupby(col).size().to_dict()` over the non-NaN values `l` of a column. -/
def countTable (l : List String) : List (String × Nat) :=
  (distinctInOrder l).map (fun s => (s, countOf l s))

/-- The non-NaN `status` column values. -/
def statusValues (df : DataFrame) : List String :=
  df.rows.filterMap (fun r => r.status.toStr)

/-- The non-NaN `category` column values. -/
def categoryValues (df : DataFrame) : List String :=
  df.rows.filterMap (fun r => r.category.toStr)

/-- `GrievanceAnalyzer.get_status_counts` (groupby drops NaN statuses). -/
def get_status_counts (df : DataFrame) : List (String × Nat) :=
  if df.rows.isEmpty then [] else countTable (statusValues df)

/-- `GrievanceAnalyzer.get_category_counts`. -/
def get_category_counts (df : DataFrame) : List (String × Nat) :=
  if df.rows.isEmpty then [] else countTable (categoryValues df)

/-- `GrievanceAnalyzer.get_monthly_trend`: group the dated rows by the
`YYYY-MM` period of `created_at` (NaT rows are dropped by groupby). -/
def get_monthly_trend (df : DataFrame) : List (String × Nat) :=
  if df.rows.isEmpty || !df.hasCreatedAt then []
  else countTable (df.rows.filterMap (fun r => r.created_at.map Timestamp.periodM))

/-- Whether a row's status equals the string `"Resolved"` (NaN compares
unequal). -/
def isResolved (r : LoadedRow) : Bool := r.status == .str "Resolved"

def isPending (r : LoadedRow) : Bool := r.status == .str "Pending"

/-- `GrievanceAnalyzer.get_resolution_rate`: `resolved / total * 100`,
unrounded; `0.0` on an empty DataFrame. -/
def get_resolution_rate (df : DataFrame) : ℚ :=
  if df.rows.isEmpty then 0
  else
    let resolved : ℚ := (df.rows.filter isResolved).length
    let total : ℚ := df.rows.length
    if 0 < df.rows.length then resolved / total * 100 else 0

/-- `GrievanceAnalyzer.get_pending_count`. -/
def get_pending_count (df : DataFrame) : Nat :=
  if df.rows.isEmpty then 0 else (df.rows.filter isPending).length

/-- Stable descending insertion by count: skip past strictly larger counts,
stop at the first count ≤ the inserted one (an element inserted earlier in
input order therefore lands before later elements with an equal count).  This
realises the sorted-by-count-descending order `Series.value_counts` returns,
whose sort is stable with respect to first occurrence of each value. -/
def insertByCountDesc (x : String × Nat) : List (String × Nat) → List (String × Nat)
  | [] => [x]
  | y :: ys => if x.2 < y.2 then y :: insertByCountDesc x ys else x :: y :: ys

def sortByCountDesc : List (String × Nat) → List (String × Nat)
  | [] => []
  | x :: t => insertByCountDesc x (sortByCountDesc t)

/-- `Series.value_counts()`: pairs (value, occurrence count) over the non-NaN
values, sorted by count descending, ties in first-seen order. -/
def valueCounts (l : List String) : List (String × Nat) :=
  sortByCountDesc ((distinctInOrder l).map (fun s => (s, countOf l s)))

/-- `GrievanceAnalyzer.get_top_categories`: `value_counts().head(n)` as a list
of pairs. -/
def get_top_categories (df : DataFrame) (n : Nat) : List (String × Nat) :=
  if df.rows.isEmpty then [] else (valueCounts (categoryValues df)).take n

/-- One cross-tabulated row+status pair: the rows `pd.crosstab` actually
counts (it drops a record whose category or status is NaN). -/
def crosstabPairs (df : DataFrame) : List (String × String) :=
  df.rows.filterMap (fun r =>
    match r.category.toStr, r.status.toStr with
    | some c, some s => some (c, s)
    | _, _ => none)

def countPair (ps : List (String × String)) (c s : String) : Nat :=
  (ps.filter (fun p => p.1 = c ∧ p.2 = s)).length

/-- `pd.crosstab(df['category'], df['status'])` as a row-major grid: one row
per observed category carrying one cell per observed status, zero-filled.
(pandas sorts the axis labels; every property below is insensitive to label
order, so first-seen order is used.) -/
def crosstabGrid (df : DataFrame) : List (String × List (String × Nat)) :=
  let ps := crosstabPairs df
  let cats := distinctInOrder (ps.map Prod.fst)
  let sts := distinctInOrder (ps.map Prod.snd)
  cats.map (fun c => (c, sts.map (fun s => (s, countPair ps c s))))

/-- `GrievanceAnalyzer.get_category_status_matrix`: `None` on an empty frame,
a `KeyError` if a non-empty frame lacks the `category` or `status` column,
otherwise the crosstab grid. -/
def get_category_status_matrix (df : DataFrame) :
    Except String (Option (List (String × List (String × Nat)))) :=
  if df.rows.isEmpty then .ok none
  else if df.rows.all (fun r => r.category = .absent) then .error "KeyError: category"
  else if df.rows.all (fun r => r.status = .absent) then .error "KeyError: status"
  else .ok (some (crosstabGrid df))

/-- The per-row `(resolved_at - created_at).days` values of the Resolved
rows, after `pd.to_datetime` of the raw `resolved_at` cells (which may
raise); `none` is the NaN produced when either side is NaT. -/
def resolutionDayValues : List LoadedRow → Except String (List (Option Int))
  | [] => .ok []
  | r :: rs =>
    match toDatetimeCell r.resolved_at with
    | .error e => .error e
    | .ok rAt =>
      match resolutionDayValues rs with
      | .error e => .error e
      | .ok vs =>
        match rAt, r.created_at with
        | some rt, some ct => .ok (some (diffDays ct rt) :: vs)
        | _, _ => .ok (none :: vs)

/-- `Series.mean()` with NaN skipping: `none` (NaN) when no value remains. -/
def seriesMean (vs : List (Option Int)) : Option ℚ :=
  let ds := vs.filterMap id
  if ds.isEmpty then none
  else some ((ds.map (fun d => (d : ℚ))).sum / ds.length)

/-- `GrievanceAnalyzer.get_average_resolution_time`.  `ok (some q)` is the
float `q`; `ok none` is NaN; `error` is a raised datetime-parse exception. -/
def get_average_resolution_time (df : DataFrame) : Except String (Option ℚ) :=
  if df.rows.isEmpty then .ok (some 0)
  else
    let resolved := df.rows.filter isResolved
    if resolved.isEmpty || !df.hasResolvedAt then .ok (some 0)
    else
      match resolutionDayValues resolved with
      | .error e => .error e
      | .ok vs => .ok (seriesMean vs)

/-- Python's `round(q, 2)` (the ties-to-even of binary floats never fires on
the values reached in proofs below, which are not midpoints). -/
def round2 (q : ℚ) : ℚ := (round (q * 100) : ℤ) / 100

/-- The summary-statistics snapshot, with one Lean field per dictionary key of
`get_summary_statistics`. -/
structure Summary where
  total_grievances : Nat
  pending_count : Nat
  resolution_rate : ℚ
  status_breakdown : List (String × Nat)
  category_breakdown : List (String × Nat)
  top_categories : List (String × Nat)
  monthly_trend : List (String × Nat)
deriving DecidableEq, Repr

/-- `GrievanceAnalyzer.get_summary_statistics`, as a record. -/
def get_summary (df : DataFrame) : Summary :=
  { total_grievances := get_total_grievances df
    pending_count := get_pending_count df
    resolution_rate := round2 (get_resolution_rate df)
    status_breakdown := get_status_counts df
    category_breakdown := get_category_counts df
    top_categories := get_top_categories df 3
    monthly_trend := get_monthly_trend df }

/-- A value of the summary dictionary: an int, a float, a dict mapping
strings to counts, or an ordered list of pairs. -/
inductive StatValue where
  | int (n : Nat)
  | float (q : ℚ)
  | table (m : List (String × Nat))
  | pairList (l : List (String × Nat))
deriving DecidableEq, Repr

/-- The dictionary literal `get_summary_statistics` returns, key by key in
source order. -/
def summaryDict (s : Summary) : List (String × StatValue) :=
  [("total_grievances", .int s.total_grievances),
   ("pending_count", .int s.pending_count),
   ("resolution_rate", .float s.resolution_rate),
   ("status_breakdown", .table s.status_breakdown),
   ("category_breakdown", .table s.category_breakdown),
   ("top_categories", .pairList s.top_categories),
   ("monthly_trend", .table s.monthly_trend)]

def get_summary_statistics (df : DataFrame) : List (String × StatValue) :=
  summaryDict (get_summary df)

/-- Python `repr`/`str` of the floats occurring in the report: rates are
multiples of 1/100 after `round(.., 2)`, printed with the shortest decimal
expansion (`66.67`, `50.0`, `0.0`, ...). -/
def pyFloatRepr (q : ℚ) : String :=
  let sign := if q < 0 then "-" else ""
  let n := (round (|q| * 100) : ℤ).toNat
  let ip := n / 100
  let fp := n % 100
  if fp = 0 then sign ++ toString ip ++ ".0"
  else if fp % 10 = 0 then sign ++ toString ip ++ "." ++ toString (fp / 10)
  else if fp < 10 then sign ++ toString ip ++ ".0" ++ toString fp
  else sign ++ toString ip ++ "." ++ toString fp

def pad4 (n : Nat) : String :=
  if n < 10 then "000" ++ toString n
  else if n < 100 then "00" ++ toString n
  else if n < 1000 then "0" ++ toString n
  else toString n

/-- `datetime.strftime('%Y-%m-%d %H:%M:%S')`. -/
def fmtDateTime (t : Timestamp) : String :=
  pad4 t.year ++ "-" ++ pad2 t.month ++ "-" ++ pad2 t.day ++ " "
    ++ pad2 t.hour ++ ":" ++ pad2 t.minute ++ ":" ++ pad2 t.second

/-- `"=" * 60`. -/
def sep60 : String := String.join (List.replicate 60 "=")

/-- The element list `generate_report` builds before `"\n".join`.  `now` is
the wall-clock time `datetime.now()` read during the call. -/
def reportLines (s : Summary) (now : Timestamp) : List String :=
  [sep60,
   "       GRIEVANCE ANALYTICS REPORT",
   sep60,
   "\nGenerated: " ++ fmtDateTime now,
   "\n--- OVERVIEW ---",
   "Total Grievances: " ++ toString s.total_grievances,
   "Pending: " ++ toString s.pending_count,
   "Resolution Rate: " ++ pyFloatRepr s.resolution_rate ++ "%"]
  ++ ["\n--- STATUS BREAKDOWN ---"]
  ++ s.status_breakdown.map (fun p => "  " ++ p.1 ++ ": " ++ toString p.2)
  ++ ["\n--- CATEGORY BREAKDOWN ---"]
  ++ s.category_breakdown.map (fun p => "  " ++ p.1 ++ ": " ++ toString p.2)
  ++ ["\n--- TOP CATEGORIES ---"]
  ++ s.top_categories.enum.map
      (fun p => "  " ++ toString (p.1 + 1) ++ ". " ++ p.2.1 ++ ": " ++ toString p.2.2)
  ++ ["\n" ++ sep60]

/-- `GrievanceAnalyzer.generate_report`: the formatter applied to the summary
snapshot, plus the `datetime.now()` value read inside the call. -/
def generate_report (s : Summary) (now : Timestamp) : String :=
  String.intercalate "\n" (reportLines s now)

theorem mem_distinctInOrder (a : String) (l : List String) :
    a ∈ distinctInOrder l ↔ a ∈ l := by
  induction l with
  | nil => simp [distinctInOrder]
  | cons x t ih =>
    simp only [distinctInOrder, List.mem_cons, List.mem_filter]
    constructor
    · rintro (rfl | ⟨hmem, _⟩)
      · exact Or.inl rfl
      · exact Or.inr (ih.mp hmem)
    · rintro (rfl | hmem)
      · exact Or.inl rfl
      · by_cases hax : a = x
        · exact Or.inl hax
        · exact Or.inr ⟨ih.mpr hmem, by simp [hax]⟩

theorem nodup_distinctInOrder (l : List String) : (distinctInOrder l).Nodup := by
  induction l with
  | nil => simp [distinctInOrder]
  | cons x t ih =>
    simp only [distinctInOrder]
    refine List.nodup_cons.mpr ⟨?_, ih.filter _⟩
    intro hmem
    have := (List.mem_filter.mp hmem).2
    simp at this

theorem countOf_cons (x : String) (t : List String) (s : String) :
    countOf (x :: t) s = countOf t s + (if x = s then 1 else 0) := by
  unfold countOf
  by_cases h : x = s <;> simp [List.filter_cons, h]

theorem sum_map_add_nat (l : List String) (f g : String → Nat) :
    (l.map (fun x => f x + g x)).sum = (l.map f).sum + (l.map g).sum := by
  induction l with
  | nil => rfl
  | cons a t ih => simp only [List.map_cons, List.sum_cons, ih]; omega

theorem sum_map_indicator_zero (d : List String) (x : String) (hx : x ∉ d) :
    (d.map (fun s => if x = s then 1 else 0)).sum = 0 := by
  induction d with
  | nil => rfl
  | cons a t ih =>
    have hax : x ≠ a := fun h => hx (h ▸ List.mem_cons_self a t)
    have hxt : x ∉ t := fun h => hx (List.mem_cons_of_mem a h)
    simp [hax, ih hxt]

theorem sum_map_indicator_one (d : List String) (x : String)
    (hd : d.Nodup) (hx : x ∈ d) :
    (d.map (fun s => if x = s then 1 else 0)).sum = 1 := by
  induction d with
  | nil => cases hx
  | cons a t ih =>
    rcases List.mem_cons.mp hx with rfl | hmem
    · have hnt : x ∉ t := (List.nodup_cons.mp hd).1
      simp [sum_map_indicator_zero t x hnt]
    · have hax : x ≠ a := by
        rintro rfl
        exact (List.nodup_cons.mp hd).1 hmem
      have := ih (List.nodup_cons.mp hd).2 hmem
      simp [hax, this]

/-- The group sizes over any duplicate-free key list covering a column sum to
the column's length. -/
theorem sum_countOf_eq_length (d l : List String)
    (hd : d.Nodup) (hcov : ∀ s ∈ l, s ∈ d) :
    (d.map (fun s => countOf l s)).sum = l.length := by
  induction l with
  | nil =>
    have : ∀ s, countOf ([] : List String) s = 0 := fun s => rfl
    simp [this]
  | cons x t ih =>
    have hx : x ∈ d := hcov x (List.mem_cons_self x t)
    have hcov' : ∀ s ∈ t, s ∈ d := fun s hs => hcov s (List.mem_cons_of_mem x hs)
    have hmap : d.map (fun s => countOf (x :: t) s)
        = d.map (fun s => countOf t s + (if x = s then 1 else 0)) :=
      List.map_congr_left (fun s _ => countOf_cons x t s)
    rw [hmap, sum_map_add_nat, ih hcov', sum_map_indicator_one d x hd hx]
    simp

/-- `countTable` values sum to the number of grouped elements. -/
theorem sum_countTable (l : List String) :
    ((countTable l).map Prod.snd).sum = l.length := by
  unfold countTable
  rw [List.map_map]
  exact sum_countOf_eq_length (distinctInOrder l) l (nodup_distinctInOrder l)
    (fun s hs => (mem_distinctInOrder s l).mpr hs)

theorem length_filterMap_of_isSome (l : List LoadedRow) (f : LoadedRow → Option String)
    (h : ∀ x ∈ l, (f x).isSome) :
    (l.filterMap f).length = l.length := by
  induction l with
  | nil => rfl
  | cons a t ih =>
    have ha : (f a).isSome := h a (List.mem_cons_self a t)
    obtain ⟨b, hb⟩ := Option.isSome_iff_exists.mp ha
    have ht : ∀ x ∈ t, (f x).isSome := fun x hx => h x (List.mem_cons_of_mem a hx)
    simp [List.filterMap_cons, hb, ih ht]

theorem mem_insertByCountDesc (z x : String × Nat) (l : List (String × Nat)) :
    z ∈ insertByCountDesc x l ↔ z = x ∨ z ∈ l := by
  induction l with
  | nil => simp [insertByCountDesc]
  | cons y ys ih =>
    unfold insertByCountDesc
    by_cases h : x.2 < y.2 <;> simp [h, List.mem_cons, ih] <;> tauto

theorem length_insertByCountDesc (x : String × Nat) (l : List (String × Nat)) :
    (insertByCountDesc x l).length = l.length + 1 := by
  induction l with
  | nil => rfl
  | cons y ys ih =>
    unfold insertByCountDesc
    by_cases h : x.2 < y.2 <;> simp [h, ih]

theorem length_sortByCountDesc (l : List (String × Nat)) :
    (sortByCountDesc l).length = l.length := by
  induction l with
  | nil => rfl
  | cons x t ih => simp [sortByCountDesc, length_insertByCountDesc, ih]

theorem mem_sortByCountDesc (z : String × Nat) (l : List (String × Nat)) :
    z ∈ sortByCountDesc l ↔ z ∈ l := by
  induction l with
  | nil => simp [sortByCountDesc]
  | cons x t ih =>
    simp [sortByCountDesc, mem_insertByCountDesc, ih]

/-- The order `sortByCountDesc` establishes, relative to a rank `f` of each
element in the original input: counts descend, and an element may precede one
of equal count only when its rank is smaller (stability). -/
def rankedDesc (f : String × Nat → Nat) (a b : String × Nat) : Prop :=
  b.2 ≤ a.2 ∧ (a.2 ≤ b.2 → f a < f b)

theorem insertByCountDesc_pairwise (f : String × Nat → Nat) (x : String × Nat)
    (l : List (String × Nat)) (hl : l.Pairwise (rankedDesc f))
    (hx : ∀ y ∈ l, f x < f y) :
    (insertByCountDesc x l).Pairwise (rankedDesc f) := by
  induction l with
  | nil => simp [insertByCountDesc, List.pairwise_cons]
  | cons y ys ih =>
    obtain ⟨hy, hys⟩ := List.pairwise_cons.mp hl
    unfold insertByCountDesc
    by_cases h : x.2 < y.2
    · simp only [h, if_true]
      refine List.pairwise_cons.mpr ⟨?_, ?_⟩
      · intro z hz
        rcases (mem_insertByCountDesc z x ys).mp hz with rfl | hmem
        · exact ⟨Nat.le_of_lt h, fun hle => absurd h (Nat.not_lt_of_le hle)⟩
        · exact hy z hmem
      · exact ih hys (fun y' hy' => hx y' (List.mem_cons_of_mem y hy'))
    · simp only [h, if_false]
      refine List.pairwise_cons.mpr ⟨?_, hl⟩
      intro z hz
      rcases List.mem_cons.mp hz with rfl | hmem
      · exact ⟨Nat.le_of_not_lt h, fun _ => hx z (List.mem_cons_self z ys)⟩
      · refine ⟨Nat.le_trans (hy z hmem).1 (Nat.le_of_not_lt h), fun _ => hx z (List.mem_cons_of_mem y hmem)⟩

theorem sortByCountDesc_pairwise (f : String × Nat → Nat)
    (l : List (String × Nat)) (hl : l.Pairwise (fun a b => f a < f b)) :
    (sortByCountDesc l).Pairwise (rankedDesc f) := by
  induction l with
  | nil => simp [sortByCountDesc]
  | cons x t ih =>
    obtain ⟨hx, ht⟩ := List.pairwise_cons.mp hl
    refine insertByCountDesc_pairwise f x (sortByCountDesc t) (ih ht) ?_
    intro y hy
    exact hx y ((mem_sortByCountDesc y t).mp hy)

/-- First occurrences are listed in strictly increasing first-index order. -/
theorem indexOf_distinctInOrder_pairwise (l : List String) :
    (distinctInOrder l).Pairwise (fun a b => l.indexOf a < l.indexOf b) := by
  induction l with
  | nil => simp [distinctInOrder]
  | cons x t ih =>
    simp only [distinctInOrder]
    refine List.pairwise_cons.mpr ⟨?_, ?_⟩
    · intro b hb
      have hbx : ¬(b = x) := by
        have := (List.mem_filter.mp hb).2
        simpa using this
      rw [List.indexOf_cons_self]
      rw [List.indexOf_cons_ne t (Ne.symm hbx)]
      exact Nat.succ_pos _
    · have hfil : ((distinctInOrder t).filter (fun s => s ≠ x)).Pairwise
          (fun a b => t.indexOf a < t.indexOf b) := ih.filter _
      refine hfil.imp_of_mem ?_
      intro a b ha hb hab
      have hax : ¬(a = x) := by
        have := (List.mem_filter.mp ha).2
        simpa using this
      have hbx : ¬(b = x) := by
        have := (List.mem_filter.mp hb).2
        simpa using this
      rw [List.indexOf_cons_ne t (Ne.symm hax), List.indexOf_cons_ne t (Ne.symm hbx)]
      exact Nat.succ_lt_succ hab

theorem countPair_eq_countOf_fst (ps : List (String × String)) (c s : String) :
    countPair ps c s = countOf ((ps.filter (fun p => p.1 = c)).map Prod.snd) s := by
  induction ps with
  | nil => rfl
  | cons p t ih =>
    unfold countPair countOf at ih ⊢
    simp only [Bool.decide_and] at ih ⊢
    by_cases h1 : p.1 = c <;> by_cases h2 : p.2 = s <;>
      simp [List.filter_cons, h1, h2, ih]

theorem countPair_eq_countOf_snd (ps : List (String × String)) (c s : String) :
    countPair ps c s = countOf ((ps.filter (fun p => p.2 = s)).map Prod.fst) c := by
  induction ps with
  | nil => rfl
  | cons p t ih =>
    unfold countPair countOf at ih ⊢
    simp only [Bool.decide_and] at ih ⊢
    by_cases h1 : p.1 = c <;> by_cases h2 : p.2 = s <;>
      simp [List.filter_cons, h1, h2, ih]

theorem length_filter_fst (ps : List (String × String)) (c : String) :
    (ps.filter (fun p => p.1 = c)).length = countOf (ps.map Prod.fst) c := by
  induction ps with
  | nil => rfl
  | cons p t ih =>
    unfold countOf at ih ⊢
    by_cases h1 : p.1 = c <;> simp [List.filter_cons, h1, ih]

theorem length_filter_snd (ps : List (String × String)) (s : String) :
    (ps.filter (fun p => p.2 = s)).length = countOf (ps.map Prod.snd) s := by
  induction ps with
  | nil => rfl
  | cons p t ih =>
    unfold countOf at ih ⊢
    by_cases h2 : p.2 = s <;> simp [List.filter_cons, h2, ih]

theorem filter_key_of_not_mem (t : List String) (x : String) (g : String → Nat)
    (h : x ∉ t) :
    (t.map (fun a => (a, g a))).filter (fun q => q.1 = x) = [] := by
  induction t with
  | nil => rfl
  | cons a tl ih =>
    have hax : ¬(a = x) := fun he => h (he ▸ List.mem_cons_self a tl)
    have hxt : x ∉ tl := fun hm => h (List.mem_cons_of_mem a hm)
    simp [List.filter_cons, hax, ih hxt]

/-- In a keyed row built over duplicate-free labels, filtering on one present
label isolates exactly its cell. -/
theorem filter_key_singleton (d : List String) (x : String) (g : String → Nat)
    (hd : d.Nodup) (hx : x ∈ d) :
    (d.map (fun a => (a, g a))).filter (fun q => q.1 = x) = [(x, g x)] := by
  induction d with
  | nil => cases hx
  | cons a t ih =>
    rcases List.mem_cons.mp hx with rfl | hmem
    · have hnt : x ∉ t := (List.nodup_cons.mp hd).1
      simp [List.filter_cons, filter_key_of_not_mem t x g hnt]
    · have hax : ¬(a = x) := by
        rintro rfl
        exact (List.nodup_cons.mp hd).1 hmem
      simp [List.filter_cons, hax, ih (List.nodup_cons.mp hd).2 hmem]

/-- Under full category/status presence the crosstab pairs project onto the
category and status columns. -/
theorem crosstabPairs_proj (rows : List LoadedRow)
    (h : ∀ r ∈ rows, (r.category.toStr).isSome ∧ (r.status.toStr).isSome) :
    ((rows.filterMap (fun r =>
        match r.category.toStr, r.status.toStr with
        | some c, some s => some (c, s)
        | _, _ => none)).map Prod.fst
      = rows.filterMap (fun r => r.category.toStr)) ∧
    ((rows.filterMap (fun r =>
        match r.category.toStr, r.status.toStr with
        | some c, some s => some (c, s)
        | _, _ => none)).map Prod.snd
      = rows.filterMap (fun r => r.status.toStr)) := by
  induction rows with
  | nil => exact ⟨rfl, rfl⟩
  | cons r t ih =>
    obtain ⟨hc, hs⟩ := h r (List.mem_cons_self r t)
    obtain ⟨c, hcv⟩ := Option.isSome_iff_exists.mp hc
    obtain ⟨s, hsv⟩ := Option.isSome_iff_exists.mp hs
    have iht := ih (fun r' hr' => h r' (List.mem_cons_of_mem r hr'))
    constructor
    · simp [List.filterMap_cons, hcv, hsv, iht.1]
    · simp [List.filterMap_cons, hcv, hsv, iht.2]

theorem convertRecords_error_of_mem (hc : Bool) (recs : List RawRecord)
    (r : RawRecord) (hr : r ∈ recs) (he : ∃ e0, convertRecord hc r = .error e0) :
    ∃ e, convertRecords hc recs = .error e := by
  induction recs with
  | nil => cases hr
  | cons h t ih =>
    rcases List.mem_cons.mp hr with rfl | hmem
    · obtain ⟨e0, he0⟩ := he
      exact ⟨e0, by simp [convertRecords, he0]⟩
    · cases hcr : convertRecord hc h with
      | error e => exact ⟨e, by simp [convertRecords, hcr]⟩
      | ok row =>
        obtain ⟨e, hee⟩ := ih hmem
        exact ⟨e, by simp [convertRecords, hcr, hee]⟩

/-- The record from the spec scenario with `created_at="bad-date"`. -/
def recBadDate : RawRecord := ⟨1, .str "Academic", .str "Pending", .str "bad-date", .absent⟩

/-- A record with a valid `created_at` date. -/
def recDated : RawRecord := ⟨1, .str "Academic", .str "Pending", .str "2026-01-05", .absent⟩

/-- A record whose `created_at` is JSON null (NaT after conversion). -/
def recNullDate : RawRecord := ⟨2, .str "Hostel", .str "Pending", .null, .absent⟩

def recsNullDate : List RawRecord := [recDated, recNullDate]

/-- C1 (claim as stated is false): a collection containing one record whose
`created_at` is the unparseable string `"bad-date"` does NOT load without
raising — `pd.to_datetime` raises out of `_load_data`, so the record is not
softly excluded and no aggregate is ever computed. -/
theorem C1_counterexample :
    loadData (.json [recBadDate]) = .error "Unknown datetime string format: bad-date" := rfl

/-- C1 (amended): a non-empty collection containing a record whose
`created_at` is a non-empty string in neither accepted format makes loading
raise (the conversion error propagates out of `_load_data`); only a record
whose `created_at` is absent/null/empty is converted to NaT and softly
excluded from `get_monthly_trend` while still counted by
`get_total_grievances` and `get_status_counts`, as the loaded collection
`[recDated, recNullDate]` shows. -/
theorem C1_amended :
    (∀ (recs : List RawRecord) (r : RawRecord) (s : String),
      r ∈ recs → r.created_at = .str s → s ≠ "" →
      parseTimestampChars s.toList = none →
      ∃ e, loadData (.json recs) = .error e) ∧
    Except.map get_total_grievances (loadData (.json recsNullDate)) = .ok 2 ∧
    Except.map get_monthly_trend (loadData (.json recsNullDate)) = .ok [("2026-01", 1)] ∧
    Except.map (fun df => ((get_status_counts df).map Prod.snd).sum)
      (loadData (.json recsNullDate)) = .ok 2 := by
  refine ⟨?_, rfl, rfl, rfl⟩
  intro recs r s hr hcr hs hparse
  obtain ⟨h, t, rfl⟩ : ∃ h t, recs = h :: t := by
    cases recs with
    | nil => cases hr
    | cons h t => exact ⟨h, t, rfl⟩
  have hany : (h :: t).any (fun r => r.created_at ≠ .absent) = true := by
    apply List.any_eq_true.mpr
    exact ⟨r, hr, by simp [hcr]⟩
  have hbad : convertRecord true r = .error ("Unknown datetime string format: " ++ s) := by
    have hparse' : parseTimestampChars s.data = none := hparse
    unfold convertRecord
    simp [hcr, toDatetimeCell, hs, parseTimestamp, hparse', Except.map]
  obtain ⟨e, hce⟩ := convertRecords_error_of_mem true (h :: t) r hr ⟨_, hbad⟩
  refine ⟨e, ?_⟩
  simp only [loadData]
  rw [hany, hce]

theorem C1_amended_witness :
    ∃ e, loadData (.json [recBadDate]) = .error e :=
  C1_amended.1 [recBadDate] recBadDate "bad-date"
    (List.mem_singleton.mpr rfl) rfl (by decide) rfl

/-- C9: a missing data file or invalid JSON is caught inside `_load_data`
(the constructor does not raise) and installs an empty DataFrame, on which
every aggregation returns its empty-input value. -/
theorem C9_io_errors_isolated :
    loadData .fileMissing = .ok emptyDF ∧
    loadData .invalidJson = .ok emptyDF ∧
    get_total_grievances emptyDF = 0 ∧
    get_status_counts emptyDF = [] ∧
    get_category_counts emptyDF = [] ∧
    get_monthly_trend emptyDF = [] ∧
    get_resolution_rate emptyDF = 0 ∧
    get_pending_count emptyDF = 0 ∧
    (∀ n, get_top_categories emptyDF n = []) ∧
    get_average_resolution_time emptyDF = .ok (some 0) :=
  ⟨rfl, rfl, rfl, rfl, rfl, rfl, rfl, rfl, fun _ => rfl, rfl⟩

/-- C10: on an empty record set `get_category_status_matrix` returns `None`
(not an empty grid), while every other aggregation returns a zeroed or empty
value of its normal result type. -/
theorem C10_matrix_none_on_empty :
    (∀ df : DataFrame, df.rows = [] → get_category_status_matrix df = .ok none) ∧
    get_category_status_matrix emptyDF = .ok none ∧
    get_total_grievances emptyDF = 0 ∧
    get_status_counts emptyDF = [] ∧
    get_category_counts emptyDF = [] ∧
    get_monthly_trend emptyDF = [] ∧
    get_resolution_rate emptyDF = 0 ∧
    get_pending_count emptyDF = 0 ∧
    (∀ n, get_top_categories emptyDF n = []) := by
  refine ⟨?_, rfl, rfl, rfl, rfl, rfl, rfl, rfl, fun _ => rfl⟩
  intro df h
  unfold get_category_status_matrix
  rw [h]
  rfl

theorem C10_matrix_none_on_empty_witness :
    get_category_status_matrix ⟨[], true, true⟩ = .ok none :=
  C10_matrix_none_on_empty.1 ⟨[], true, true⟩ rfl

set_option maxRecDepth 8192 in
/-- C2 (claim as stated is false): the report embeds `datetime.now()`, so two
runs of `generate_report` over the same summary statistics at different
wall-clock seconds produce different text. -/
theorem C2_counterexample :
    generate_report (get_summary emptyDF) ⟨2026, 1, 1, 0, 0, 0⟩ ≠
    generate_report (get_summary emptyDF) ⟨2026, 1, 1, 0, 0, 1⟩ := by decide

/-- C2 (amended): report text is a pure function of the snapshot AND the
`datetime.now()` value read during the call; the generation timestamp enters
only through the `Generated:` element (index 3 of the joined list), and every
other element is byte-identical across runs over the same statistics. -/
theorem C2_amended (s : Summary) (t1 t2 : Timestamp) :
    generate_report s t1 = String.intercalate "\n" (reportLines s t1) ∧
    (reportLines s t1).eraseIdx 3 = (reportLines s t2).eraseIdx 3 ∧
    (reportLines s t1)[3]? = some ("\nGenerated: " ++ fmtDateTime t1) := by
  refine ⟨rfl, ?_, rfl⟩
  rfl

/-- The statuses `["Pending", "Resolved", "Resolved"]` of spec scenario 2,
with categories `["Academic", "Academic", "Hostel"]`. -/
def recs3 : List RawRecord :=
  [⟨1, .str "Academic", .str "Pending", .absent, .absent⟩,
   ⟨2, .str "Academic", .str "Resolved", .absent, .absent⟩,
   ⟨3, .str "Hostel", .str "Resolved", .absent, .absent⟩]

/-- C3 (claim as stated is false): on statuses
`["Pending", "Resolved", "Resolved"]` `get_resolution_rate` returns the
unrounded `200/3 = 66.666...`, not `66.67`: no rounding happens inside
`get_resolution_rate`. -/
theorem C3_counterexample :
    Except.map get_resolution_rate (loadData (.json recs3)) = .ok (200 / 3 : ℚ) ∧
    (200 / 3 : ℚ) ≠ 6667 / 100 := by
  have h1 : Except.map get_resolution_rate (loadData (.json recs3))
      = .ok (((2 : Nat) : ℚ) / ((3 : Nat) : ℚ) * 100) := rfl
  constructor
  · rw [h1]
    simp only [Except.ok.injEq]
    norm_num
  · norm_num

theorem resolution_rate_bounds (df : DataFrame) :
    0 ≤ get_resolution_rate df ∧ get_resolution_rate df ≤ 100 := by
  unfold get_resolution_rate
  cases h : df.rows.isEmpty with
  | true => norm_num
  | false =>
    have hlen : 0 < df.rows.length := by
      cases hr : df.rows with
      | nil => rw [hr] at h; simp at h
      | cons a t => simp [hr]
    have hq : (0 : ℚ) < (df.rows.length : ℚ) := by exact_mod_cast hlen
    have hfil : ((df.rows.filter isResolved).length : ℚ) ≤ (df.rows.length : ℚ) := by
      exact_mod_cast List.length_filter_le _ _
    have h1 : ((df.rows.filter isResolved).length : ℚ) / (df.rows.length : ℚ) ≤ 1 :=
      (div_le_one hq).mpr hfil
    constructor
    · simp only [Bool.false_eq_true, if_false, hlen, if_pos]
      positivity
    · simp only [Bool.false_eq_true, if_false, hlen, if_pos]
      calc ((df.rows.filter isResolved).length : ℚ) / (df.rows.length : ℚ) * 100
          ≤ 1 * 100 := by
            exact mul_le_mul_of_nonneg_right h1 (by norm_num)
        _ = 100 := by norm_num

/-- C3 (amended): `get_resolution_rate` returns the exact, unrounded
`resolved / total * 100` (a value in [0, 100]), `0.0` on an empty frame; the
2-decimal rounding is applied by `get_summary_statistics`, whose
`resolution_rate` entry for statuses `[Pending, Resolved, Resolved]` is
`66.67`. -/
theorem C3_amended :
    (∀ df : DataFrame, df.rows = [] → get_resolution_rate df = 0) ∧
    (∀ df : DataFrame, 0 ≤ get_resolution_rate df ∧ get_resolution_rate df ≤ 100) ∧
    Except.map (fun df => round2 (get_resolution_rate df)) (loadData (.json recs3))
      = .ok (6667 / 100) ∧
    Except.map (fun df => (get_summary df).resolution_rate) (loadData (.json recs3))
      = .ok (6667 / 100) := by
  have h1 : Except.map (fun df => round2 (get_resolution_rate df)) (loadData (.json recs3))
      = .ok (round2 (((2 : Nat) : ℚ) / ((3 : Nat) : ℚ) * 100)) := rfl
  have h2 : Except.map (fun df => (get_summary df).resolution_rate) (loadData (.json recs3))
      = .ok (round2 (((2 : Nat) : ℚ) / ((3 : Nat) : ℚ) * 100)) := rfl
  have hval : round2 (((2 : Nat) : ℚ) / ((3 : Nat) : ℚ) * 100) = 6667 / 100 := by
    unfold round2
    norm_num [round_eq]
  refine ⟨?_, resolution_rate_bounds, ?_, ?_⟩
  · intro df h
    unfold get_resolution_rate
    rw [h]
    rfl
  · rw [h1, hval]
  · rw [h2, hval]

theorem C3_amended_witness : get_resolution_rate emptyDF = 0 :=
  C3_amended.1 emptyDF rfl

/-- The record of spec scenario 3: created `2026-01-10 09:00:00`, resolved
`2026-01-15 09:00:00`, status Resolved. -/
def rec5 : RawRecord :=
  ⟨1, .str "Academic", .str "Resolved", .str "2026-01-10 09:00:00",
   .str "2026-01-15 09:00:00"⟩

/-- A Resolved record whose `resolved_at` is JSON null. -/
def recNullResolved : RawRecord :=
  ⟨2, .str "Academic", .str "Resolved", .str "2026-01-10 09:00:00", .null⟩

def recsMixedResolved : List RawRecord := [rec5, recNullResolved]

/-- C4 (claim as stated is false): for a collection whose only record is
Resolved with `resolved_at` null, no record with both timestamps valid
exists, yet `get_average_resolution_time` returns NaN (the mean of an empty
series), not `0.0`. -/
theorem C4_counterexample :
    Except.map get_average_resolution_time (loadData (.json [recNullResolved]))
      = .ok (.ok none) ∧
    (Except.ok none : Except String (Option ℚ)) ≠ .ok (some 0) := by
  refine ⟨rfl, ?_⟩
  intro h
  simp at h

/-- C4 (amended): the mean is taken over the whole-day (floored) differences
of exactly the Resolved records whose `resolved_at` converts to a valid
timestamp — the documented example returns `5.0`, and a Resolved record with
null `resolved_at` is excluded from the mean when a valid one remains; the
result is `0.0` when no record at all carries a `resolved_at` field or no
Resolved record exists (including the empty frame), but it is NaN — not 0.0 —
when Resolved rows exist, the column exists, and no valid difference remains
(and a non-empty unparseable `resolved_at` string raises instead of being
excluded). -/
theorem C4_amended :
    Except.map get_average_resolution_time (loadData (.json [rec5]))
      = .ok (.ok (some 5)) ∧
    Except.map get_average_resolution_time (loadData (.json recsMixedResolved))
      = .ok (.ok (some 5)) ∧
    (∀ df : DataFrame, df.hasResolvedAt = false →
      get_average_resolution_time df = .ok (some 0)) ∧
    (∀ df : DataFrame, df.rows.filter isResolved = [] →
      get_average_resolution_time df = .ok (some 0)) := by
  have hmean : seriesMean [some 5] = some 5 := by
    unfold seriesMean
    norm_num [List.filterMap_cons, List.sum_cons, List.sum_nil]
  refine ⟨?_, ?_, ?_, ?_⟩
  · have h1 : Except.map get_average_resolution_time (loadData (.json [rec5]))
        = .ok (.ok (seriesMean [some 5])) := rfl
    rw [h1, hmean]
  · have h1 : Except.map get_average_resolution_time (loadData (.json recsMixedResolved))
        = .ok (.ok (seriesMean [some 5, none])) := rfl
    have h2 : seriesMean [some 5, none] = seriesMean [some 5] := rfl
    rw [h1, h2, hmean]
  · intro df h
    unfold get_average_resolution_time
    cases he : df.rows.isEmpty with
    | true => rfl
    | false => simp [h, he]
  · intro df h
    unfold get_average_resolution_time
    cases he : df.rows.isEmpty with
    | true => rfl
    | false => simp [h, he]

theorem C4_amended_witness :
    get_average_resolution_time
        ⟨[⟨1, .str "Academic", .str "Resolved", none, .null⟩], true, false⟩
      = .ok (some 0) :=
  C4_amended.2.2.1 ⟨[⟨1, .str "Academic", .str "Resolved", none, .null⟩], true, false⟩ rfl

/-- C8 (claim as stated is false): the summary dictionary's first two keys
are `total_grievances` and `pending_count`, not `total` and `pending`. -/
theorem C8_counterexample :
    (get_summary_statistics emptyDF).map Prod.fst ≠
      ["total", "pending", "resolution_rate", "status_breakdown",
       "category_breakdown", "top_categories", "monthly_trend"] := by decide

/-- C8 (amended): for every input the summary mapping has exactly the keys
`total_grievances`, `pending_count`, `resolution_rate`, `status_breakdown`,
`category_breakdown`, `top_categories` and `monthly_trend`, in that order;
the two breakdowns and the trend hold dict values, `top_categories` holds an
ordered list of pairs, and the first two keys hold ints. -/
theorem C8_amended (df : DataFrame) :
    (get_summary_statistics df).map Prod.fst =
      ["total_grievances", "pending_count", "resolution_rate", "status_breakdown",
       "category_breakdown", "top_categories", "monthly_trend"] ∧
    (∃ n, (get_summary_statistics df).lookup "total_grievances" = some (.int n)) ∧
    (∃ n, (get_summary_statistics df).lookup "pending_count" = some (.int n)) ∧
    (∃ q, (get_summary_statistics df).lookup "resolution_rate" = some (.float q)) ∧
    (∃ m, (get_summary_statistics df).lookup "status_breakdown" = some (.table m)) ∧
    (∃ m, (get_summary_statistics df).lookup "category_breakdown" = some (.table m)) ∧
    (∃ l, (get_summary_statistics df).lookup "top_categories" = some (.pairList l)) ∧
    (∃ m, (get_summary_statistics df).lookup "monthly_trend" = some (.table m)) := by
  refine ⟨rfl, ?_, ?_, ?_, ?_, ?_, ?_, ?_⟩ <;> exact ⟨_, rfl⟩

/-- C6: when every record carries a status, the counts of
`get_status_counts` sum to `get_total_grievances` (groupby partitions the
rows). -/
theorem C6_status_counts_sum_to_total (df : DataFrame)
    (h : ∀ r ∈ df.rows, (r.status.toStr).isSome = true) :
    ((get_status_counts df).map Prod.snd).sum = get_total_grievances df := by
  unfold get_status_counts get_total_grievances
  cases he : df.rows.isEmpty with
  | true => rfl
  | false =>
    have h1 : ((countTable (statusValues df)).map Prod.snd).sum
        = (statusValues df).length := sum_countTable (statusValues df)
    have h2 : (statusValues df).length = df.rows.length :=
      length_filterMap_of_isSome df.rows (fun r => r.status.toStr) h
    simp only [Bool.false_eq_true, if_false]
    rw [h1, h2]

def dfTwoStatuses : DataFrame :=
  ⟨[⟨1, .str "Academic", .str "Pending", none, .absent⟩,
    ⟨2, .str "Hostel", .str "Resolved", none, .absent⟩], false, false⟩

theorem C6_status_counts_sum_to_total_witness :
    ((get_status_counts dfTwoStatuses).map Prod.snd).sum
      = get_total_grievances dfTwoStatuses :=
  C6_status_counts_sum_to_total dfTwoStatuses (by decide)

theorem length_distinctInOrder (l : List String) :
    (distinctInOrder l).length = l.toFinset.card := by
  have hnd := nodup_distinctInOrder l
  have hmem : (distinctInOrder l).toFinset = l.toFinset := by
    ext a
    simp [List.mem_toFinset, mem_distinctInOrder]
  rw [← List.toFinset_card_of_nodup hnd, hmem]

/-- C5: `get_top_categories` returns pairs with non-increasing counts, ties
listed by first occurrence of the category in the (non-NaN) category column,
and exactly `min n (number of distinct categories)` of them. -/
theorem C5_top_categories_ordering (df : DataFrame) (n : Nat) :
    (get_top_categories df n).length = min n (categoryValues df).toFinset.card ∧
    (get_top_categories df n).Pairwise (fun a b => b.2 ≤ a.2) ∧
    (get_top_categories df n).Pairwise
      (fun a b => a.2 = b.2 →
        (categoryValues df).indexOf a.1 < (categoryValues df).indexOf b.1) := by
  unfold get_top_categories
  cases he : df.rows.isEmpty with
  | true =>
    have hr : df.rows = [] := List.isEmpty_iff.mp he
    have hc : categoryValues df = [] := by simp [categoryValues, hr]
    simp [hc]
  | false =>
    simp only [Bool.false_eq_true, if_false]
    set cats := categoryValues df with hcats
    set f : String × Nat → Nat := fun p => cats.indexOf p.1 with hf
    have hpre : ((distinctInOrder cats).map (fun s => (s, countOf cats s))).Pairwise
        (fun a b => f a < f b) := by
      rw [List.pairwise_map]
      exact indexOf_distinctInOrder_pairwise cats
    have hsorted := sortByCountDesc_pairwise f _ hpre
    have htake : ((valueCounts cats).take n).Pairwise (rankedDesc f) :=
      List.Pairwise.sublist (List.take_sublist n _) hsorted
    refine ⟨?_, ?_, ?_⟩
    · rw [List.length_take, valueCounts, length_sortByCountDesc, List.length_map,
        length_distinctInOrder]
    · exact htake.imp (fun h => h.1)
    · exact htake.imp (fun h heq => h.2 (Nat.le_of_eq heq))

/-- Row margin: summing one category's cells across all observed statuses
counts that category's occurrences among the cross-tabulated pairs. -/
theorem sum_countPair_over_statuses (ps : List (String × String)) (c : String) :
    ((distinctInOrder (ps.map Prod.snd)).map (fun s => countPair ps c s)).sum
      = countOf (ps.map Prod.fst) c := by
  have h1 : (distinctInOrder (ps.map Prod.snd)).map (fun s => countPair ps c s)
      = (distinctInOrder (ps.map Prod.snd)).map
          (fun s => countOf ((ps.filter (fun p => p.1 = c)).map Prod.snd) s) :=
    List.map_congr_left (fun s _ => countPair_eq_countOf_fst ps c s)
  have hcov : ∀ s ∈ (ps.filter (fun p => p.1 = c)).map Prod.snd,
      s ∈ distinctInOrder (ps.map Prod.snd) := by
    intro s hs
    obtain ⟨p, hpf, rfl⟩ := List.mem_map.mp hs
    exact (mem_distinctInOrder _ _).mpr
      (List.mem_map_of_mem Prod.snd (List.mem_of_mem_filter hpf))
  rw [h1, sum_countOf_eq_length _ _ (nodup_distinctInOrder _) hcov, List.length_map,
    length_filter_fst]

/-- Column margin: summing one status's cells across all observed categories
counts that status's occurrences among the cross-tabulated pairs. -/
theorem sum_countPair_over_categories (ps : List (String × String)) (s : String) :
    ((distinctInOrder (ps.map Prod.fst)).map (fun c => countPair ps c s)).sum
      = countOf (ps.map Prod.snd) s := by
  have h1 : (distinctInOrder (ps.map Prod.fst)).map (fun c => countPair ps c s)
      = (distinctInOrder (ps.map Prod.fst)).map
          (fun c => countOf ((ps.filter (fun p => p.2 = s)).map Prod.fst) c) :=
    List.map_congr_left (fun c _ => countPair_eq_countOf_snd ps c s)
  have hcov : ∀ c ∈ (ps.filter (fun p => p.2 = s)).map Prod.fst,
      c ∈ distinctInOrder (ps.map Prod.fst) := by
    intro c hc
    obtain ⟨p, hpf, rfl⟩ := List.mem_map.mp hc
    exact (mem_distinctInOrder _ _).mpr
      (List.mem_map_of_mem Prod.fst (List.mem_of_mem_filter hpf))
  rw [h1, sum_countOf_eq_length _ _ (nodup_distinctInOrder _) hcov, List.length_map,
    length_filter_snd]

theorem not_all_absent (rows : List LoadedRow) (g : LoadedRow → Cell)
    (hne : rows ≠ []) (h : ∀ r ∈ rows, ((g r).toStr).isSome = true) :
    rows.all (fun r => g r = .absent) = false := by
  cases rows with
  | nil => exact absurd rfl hne
  | cons r0 t =>
    have h0 := h r0 (List.mem_cons_self r0 t)
    apply Bool.eq_false_iff.mpr
    intro hall
    have h1 := List.all_eq_true.mp hall r0 (List.mem_cons_self r0 t)
    have h2 : g r0 = .absent := of_decide_eq_true h1
    rw [h2] at h0
    simp [Cell.toStr] at h0

/-- C7: on a non-empty frame whose records all carry a category and a status,
`get_category_status_matrix` is the zero-filled grid over observed categories
× observed statuses, its row sums are `get_category_counts` and its column
sums are `get_status_counts`. -/
theorem C7_matrix_margins (df : DataFrame) (hne : df.rows ≠ [])
    (h : ∀ r ∈ df.rows,
      (r.category.toStr).isSome = true ∧ (r.status.toStr).isSome = true) :
    get_category_status_matrix df = .ok (some (crosstabGrid df)) ∧
    (crosstabGrid df).map Prod.fst = distinctInOrder (categoryValues df) ∧
    (∀ row ∈ crosstabGrid df,
      row.2.map Prod.fst = distinctInOrder (statusValues df)) ∧
    (crosstabGrid df).map (fun row => (row.1, (row.2.map Prod.snd).sum))
      = get_category_counts df ∧
    (distinctInOrder (statusValues df)).map
        (fun s => (s, ((crosstabGrid df).map
          (fun row => ((row.2.filter (fun q => q.1 = s)).map Prod.snd).sum)).sum))
      = get_status_counts df := by
  have he : df.rows.isEmpty = false := by
    cases hrr : df.rows with
    | nil => exact absurd hrr hne
    | cons a t => rfl
  have hcat : df.rows.all (fun r => r.category = .absent) = false :=
    not_all_absent df.rows (fun r => r.category) hne (fun r hr => (h r hr).1)
  have hst : df.rows.all (fun r => r.status = .absent) = false :=
    not_all_absent df.rows (fun r => r.status) hne (fun r hr => (h r hr).2)
  have hproj := crosstabPairs_proj df.rows h
  have hfst : (crosstabPairs df).map Prod.fst = categoryValues df := hproj.1
  have hsnd : (crosstabPairs df).map Prod.snd = statusValues df := hproj.2
  have hgrid : crosstabGrid df
      = (distinctInOrder (categoryValues df)).map
          (fun c => (c, (distinctInOrder (statusValues df)).map
            (fun s => (s, countPair (crosstabPairs df) c s)))) := by
    unfold crosstabGrid
    simp only [hfst, hsnd]
  refine ⟨?_, ?_, ?_, ?_, ?_⟩
  · unfold get_category_status_matrix
    rw [he, hcat, hst]
    rfl
  · rw [hgrid]
    have hid : (Prod.fst ∘ fun c : String =>
        (c, (distinctInOrder (statusValues df)).map
          (fun s => (s, countPair (crosstabPairs df) c s)))) = id := rfl
    rw [List.map_map, hid, List.map_id]
  · intro row hrow
    rw [hgrid] at hrow
    obtain ⟨c, hc, rfl⟩ := List.mem_map.mp hrow
    show ((distinctInOrder (statusValues df)).map
        (fun s => (s, countPair (crosstabPairs df) c s))).map Prod.fst
      = distinctInOrder (statusValues df)
    have hid : (Prod.fst ∘ fun s : String => (s, countPair (crosstabPairs df) c s))
        = id := rfl
    rw [List.map_map, hid, List.map_id]
  · unfold get_category_counts
    rw [he]
    simp only [Bool.false_eq_true, if_false]
    rw [hgrid, List.map_map]
    unfold countTable
    apply List.map_congr_left
    intro c hcmem
    have hrowsum : (((distinctInOrder (statusValues df)).map
        (fun s => (s, countPair (crosstabPairs df) c s))).map Prod.snd).sum
        = countOf (categoryValues df) c := by
      have hcomp : (Prod.snd ∘ fun s : String => (s, countPair (crosstabPairs df) c s))
          = fun s => countPair (crosstabPairs df) c s := rfl
      rw [List.map_map, hcomp, ← hsnd, ← hfst]
      exact sum_countPair_over_statuses (crosstabPairs df) c
    show (c, (((distinctInOrder (statusValues df)).map
        (fun s => (s, countPair (crosstabPairs df) c s))).map Prod.snd).sum)
      = (c, countOf (categoryValues df) c)
    rw [hrowsum]
  · unfold get_status_counts
    rw [he]
    simp only [Bool.false_eq_true, if_false]
    rw [hgrid]
    unfold countTable
    apply List.map_congr_left
    intro s hsmem
    have step1 : ((distinctInOrder (categoryValues df)).map
        (fun c => (c, (distinctInOrder (statusValues df)).map
          (fun s' => (s', countPair (crosstabPairs df) c s'))))).map
        (fun row => ((row.2.filter (fun q => q.1 = s)).map Prod.snd).sum)
        = (distinctInOrder (categoryValues df)).map
            (fun c => countPair (crosstabPairs df) c s) := by
      rw [List.map_map]
      apply List.map_congr_left
      intro c _
      show ((((distinctInOrder (statusValues df)).map
          (fun s' => (s', countPair (crosstabPairs df) c s'))).filter
            (fun q => q.1 = s)).map Prod.snd).sum
        = countPair (crosstabPairs df) c s
      rw [filter_key_singleton (distinctInOrder (statusValues df)) s
        (fun s' => countPair (crosstabPairs df) c s') (nodup_distinctInOrder _) hsmem]
      simp
    show (s, (((distinctInOrder (categoryValues df)).map
        (fun c => (c, (distinctInOrder (statusValues df)).map
          (fun s' => (s', countPair (crosstabPairs df) c s'))))).map
        (fun row => ((row.2.filter (fun q => q.1 = s)).map Prod.snd).sum)).sum)
      = (s, countOf (statusValues df) s)
    rw [step1]
    have hsum : ((distinctInOrder (categoryValues df)).map
        (fun c => countPair (crosstabPairs df) c s)).sum
        = countOf (statusValues df) s := by
      rw [← hfst, ← hsnd]
      exact sum_countPair_over_categories (crosstabPairs df) s
    rw [hsum]

def dfTwoByTwo : DataFrame :=
  ⟨[⟨1, .str "Academic", .str "Pending", none, .absent⟩,
    ⟨2, .str "Academic", .str "Resolved", none, .absent⟩,
    ⟨3, .str "Hostel", .str "Resolved", none, .absent⟩], false, false⟩

theorem C7_matrix_margins_witness :
    get_category_status_matrix dfTwoByTwo = .ok (some (crosstabGrid dfTwoByTwo)) ∧
    (crosstabGrid dfTwoByTwo).map (fun row => (row.1, (row.2.map Prod.snd).sum))
      = get_category_counts dfTwoByTwo :=
  ⟨(C7_matrix_margins dfTwoByTwo (by decide) (by decide)).1,
   (C7_matrix_margins dfTwoByTwo (by decide) (by decide)).2.2.2.1⟩
